import Mathlib

/-!
Shallow embedding of the FairMed prototype API server (src/backend/app.py).

The server is a stateless Flask app with three endpoints; the two endpoints
the claims concern are POST /api/analyze (analyze_bias) and POST /api/mitigate
(apply_mitigation).  Both parse a JSON body, read fields with dict.get
defaults, and return one of six fixed report dictionaries or an error.

Modelling decisions:
- JSON scalar values are the inductive JVal; a parsed JSON object body is an
  association list of string keys to JVal values.  Python dict.get with a
  default is jget; Python truthiness of a JSON value is truthy.
- Each report dictionary is a BiasReport record.  A key that is absent from a
  given dictionary in the source is an Option field set to none (description
  is missing from the mitigated cardiovascular and pain dictionaries,
  recommendations and improvement each appear in only one variant).  The
  baseline dictionaries carry the key mitigated_results with literal value
  None (JSON null); the mitigated dictionaries omit the key entirely, so that
  field is the two-valued MitigatedResults.
- Numeric literals of the source become exact rationals; no arithmetic is
  performed on them anywhere in the source, only literal data is served.
- An HTTP response is a status code plus either a report body or an error
  body carrying the error message string.
-/

/-- A JSON scalar value as it can appear as a field of the parsed request
body. -/
inductive JVal where
  | null : JVal
  | bool : Bool → JVal
  | num : ℚ → JVal
  | str : String → JVal
deriving DecidableEq

/-- Python dict.get with a default, over a parsed JSON object represented as
an association list (first occurrence of the key wins, as in a dict). -/
def jget (data : List (String × JVal)) (key : String) (dflt : JVal) : JVal :=
  match data with
  | [] => dflt
  | (k, v) :: rest => if k = key then v else jget rest key dflt

/-- Python truthiness of a JSON scalar: None and False are falsy, a number is
truthy iff nonzero, a string is truthy iff nonempty. -/
def truthy : JVal → Bool
  | JVal.null => false
  | JVal.bool b => b
  | JVal.num q => decide (q ≠ 0)
  | JVal.str s => decide (s ≠ "")

/-- The four confusion-matrix counts of one demographic group. -/
structure ConfusionMatrix where
  tn : ℕ
  fp : ℕ
  fn : ℕ
  tp : ℕ
deriving DecidableEq

/-- Per-group performance metrics, one entry of the groups dictionary. -/
structure GroupMetrics where
  group : String
  sample_size : ℕ
  accuracy : ℚ
  tpr : ℚ
  fpr : ℚ
  precision : ℚ
  confusion_matrix : ConfusionMatrix
deriving DecidableEq

/-- The fixed set of four fairness metrics of the metrics dictionary. -/
structure FairnessMetrics where
  statistical_parity : ℚ
  equalized_odds_tpr : ℚ
  equalized_odds_fpr : ℚ
  predictive_parity : ℚ
deriving DecidableEq

/-- One entry of the flags list of a report. -/
structure BiasFlag where
  type : String
  severity : String
  message : String
  value : ℚ
deriving DecidableEq

/-- One entry of the recommendations list of a baseline report. -/
structure Recommendation where
  priority : String
  title : String
  description : String
  expected_improvement : ℕ
  implementation_cost : String
  timeline : String
deriving DecidableEq

/-- The improvement summary of a mitigated report. -/
structure Improvement where
  bias_score_change : ℚ
  accuracy_disparity_reduction : ℚ
  message : String
deriving DecidableEq

/-- State of the mitigated_results key of a report dictionary: the baseline
dictionaries carry the key with literal value None (the "not yet computed"
marker, populated only after a later /api/mitigate call); the mitigated
dictionaries do not carry the key at all. -/
inductive MitigatedResults where
  | absent : MitigatedResults
  | nullMarker : MitigatedResults
deriving DecidableEq

/-- One report dictionary of the catalog.  Option fields are none exactly
when the source dictionary omits the key.  The groups field keeps the
insertion order of the source dictionary as an association list. -/
structure BiasReport where
  scenario : String
  title : String
  description : Option String
  overall_score : ℚ
  groups : List (String × GroupMetrics)
  metrics : FairnessMetrics
  flags : List BiasFlag
  recommendations : Option (List Recommendation)
  improvement : Option Improvement
  mitigated_results : MitigatedResults
deriving DecidableEq

/-- Body of an HTTP response: either a serialized report or an error object
carrying a message under the key error. -/
inductive RespBody where
  | report : BiasReport → RespBody
  | error : String → RespBody
deriving DecidableEq

/-- An HTTP response: status code and body. -/
structure Response where
  status : ℕ
  body : RespBody
deriving DecidableEq

/-- Baseline dermatology report returned by load_dermatology_scenario. -/
def load_dermatology_scenario : BiasReport :=
  { scenario := "dermatology"
    title := "Melanoma Detection AI - Skin Tone Bias"
    description := some "AI model trained primarily on light skin (Fitzpatrick I-III) showing significant accuracy disparities"
    overall_score := 45.2
    groups :=
      [ ("Light Skin (I-III)",
          { group := "Light Skin (I-III)", sample_size := 700, accuracy := 0.90,
            tpr := 0.92, fpr := 0.08, precision := 0.89,
            confusion_matrix := { tn := 322, fp := 28, fn := 24, tp := 326 } }),
        ("Medium Skin (IV)",
          { group := "Medium Skin (IV)", sample_size := 200, accuracy := 0.76,
            tpr := 0.78, fpr := 0.24, precision := 0.74,
            confusion_matrix := { tn := 76, fp := 24, fn := 22, tp := 78 } }),
        ("Dark Skin (V-VI)",
          { group := "Dark Skin (V-VI)", sample_size := 100, accuracy := 0.60,
            tpr := 0.62, fpr := 0.38, precision := 0.58,
            confusion_matrix := { tn := 31, fp := 19, fn := 19, tp := 31 } }) ]
    metrics :=
      { statistical_parity := 0.30, equalized_odds_tpr := 0.30,
        equalized_odds_fpr := 0.30, predictive_parity := 0.31 }
    flags :=
      [ { type := "accuracy_disparity", severity := "high",
          message := "Accuracy varies by 30.0% across skin tones (threshold: 5%)",
          value := 0.30 },
        { type := "tpr_disparity", severity := "high",
          message := "True Positive Rate varies by 30.0% across skin tones",
          value := 0.30 },
        { type := "precision_disparity", severity := "high",
          message := "Precision varies by 31.0% across skin tones",
          value := 0.31 } ]
    recommendations := some
      [ { priority := "high", title := "Augment Training Data",
          description := "Add synthetic images of melanoma on darker skin tones (Fitzpatrick V-VI)",
          expected_improvement := 35, implementation_cost := "€15,000",
          timeline := "2-3 weeks" },
        { priority := "high", title := "Apply Adversarial Debiasing",
          description := "Retrain model with dual objectives: accuracy + fairness across skin tones",
          expected_improvement := 40, implementation_cost := "€8,000",
          timeline := "1-2 weeks" },
        { priority := "medium", title := "Adjust Decision Thresholds",
          description := "Use group-specific thresholds to equalize sensitivity across skin tones",
          expected_improvement := 25, implementation_cost := "€2,000",
          timeline := "3-5 days" } ]
    improvement := none
    mitigated_results := MitigatedResults.nullMarker }

/-- Baseline cardiovascular report returned by load_cardiovascular_scenario. -/
def load_cardiovascular_scenario : BiasReport :=
  { scenario := "cardiovascular"
    title := "Cardiovascular Disease Predictor - Gender Bias"
    description := some "AI model undertrained on female patients, leading to underdiagnosis"
    overall_score := 62.0
    groups :=
      [ ("Male",
          { group := "Male", sample_size := 700, accuracy := 0.85,
            tpr := 0.87, fpr := 0.13, precision := 0.84,
            confusion_matrix := { tn := 305, fp := 45, fn := 45, tp := 305 } }),
        ("Female",
          { group := "Female", sample_size := 300, accuracy := 0.72,
            tpr := 0.70, fpr := 0.28, precision := 0.68,
            confusion_matrix := { tn := 108, fp := 42, fn := 42, tp := 108 } }) ]
    metrics :=
      { statistical_parity := 0.13, equalized_odds_tpr := 0.17,
        equalized_odds_fpr := 0.15, predictive_parity := 0.16 }
    flags :=
      [ { type := "accuracy_disparity", severity := "high",
          message := "Accuracy varies by 13.0% between genders (threshold: 5%)",
          value := 0.13 } ]
    recommendations := some
      [ { priority := "high", title := "Balance Training Dataset",
          description := "Increase female patient representation to 50%",
          expected_improvement := 30, implementation_cost := "€12,000",
          timeline := "3-4 weeks" } ]
    improvement := none
    mitigated_results := MitigatedResults.nullMarker }

/-- Baseline pain-management report returned by load_pain_scenario. -/
def load_pain_scenario : BiasReport :=
  { scenario := "pain"
    title := "Pain Management Algorithm - Age Bias"
    description := some "AI uses age as proxy for pain tolerance, undertreating elderly patients"
    overall_score := 58.5
    groups :=
      [ ("Age 18-40",
          { group := "Age 18-40", sample_size := 400, accuracy := 0.82,
            tpr := 0.84, fpr := 0.16, precision := 0.81,
            confusion_matrix := { tn := 168, fp := 32, fn := 32, tp := 168 } }),
        ("Age 41-64",
          { group := "Age 41-64", sample_size := 350, accuracy := 0.78,
            tpr := 0.76, fpr := 0.22, precision := 0.74,
            confusion_matrix := { tn := 137, fp := 38, fn := 42, tp := 133 } }),
        ("Age 65+",
          { group := "Age 65+", sample_size := 250, accuracy := 0.68,
            tpr := 0.65, fpr := 0.32, precision := 0.67,
            confusion_matrix := { tn := 85, fp := 40, fn := 44, tp := 81 } }) ]
    metrics :=
      { statistical_parity := 0.14, equalized_odds_tpr := 0.19,
        equalized_odds_fpr := 0.16, predictive_parity := 0.14 }
    flags :=
      [ { type := "accuracy_disparity", severity := "high",
          message := "Accuracy varies by 14.0% across age groups (threshold: 5%)",
          value := 0.14 } ]
    recommendations := some
      [ { priority := "high", title := "Remove Age as Direct Feature",
          description := "Eliminate age-based assumptions about pain tolerance",
          expected_improvement := 35, implementation_cost := "€5,000",
          timeline := "1-2 weeks" } ]
    improvement := none
    mitigated_results := MitigatedResults.nullMarker }

/-- Mitigated dermatology report returned by get_mitigated_dermatology_results. -/
def get_mitigated_dermatology_results : BiasReport :=
  { scenario := "dermatology"
    title := "Melanoma Detection AI - After Mitigation"
    description := some "After applying adversarial debiasing and data augmentation"
    overall_score := 87.3
    groups :=
      [ ("Light Skin (I-III)",
          { group := "Light Skin (I-III)", sample_size := 700, accuracy := 0.87,
            tpr := 0.88, fpr := 0.12, precision := 0.86,
            confusion_matrix := { tn := 308, fp := 42, fn := 42, tp := 308 } }),
        ("Medium Skin (IV)",
          { group := "Medium Skin (IV)", sample_size := 200, accuracy := 0.85,
            tpr := 0.86, fpr := 0.14, precision := 0.84,
            confusion_matrix := { tn := 86, fp := 14, fn := 14, tp := 86 } }),
        ("Dark Skin (V-VI)",
          { group := "Dark Skin (V-VI)", sample_size := 100, accuracy := 0.84,
            tpr := 0.85, fpr := 0.15, precision := 0.83,
            confusion_matrix := { tn := 43, fp := 7, fn := 8, tp := 42 } }) ]
    metrics :=
      { statistical_parity := 0.03, equalized_odds_tpr := 0.03,
        equalized_odds_fpr := 0.03, predictive_parity := 0.03 }
    flags := []
    recommendations := none
    improvement := some
      { bias_score_change := 42.1, accuracy_disparity_reduction := 0.27,
        message := "Bias reduced by 90% - now within acceptable thresholds" }
    mitigated_results := MitigatedResults.absent }

/-- Mitigated cardiovascular report returned by
get_mitigated_cardiovascular_results.  The source dictionary carries no
description key. -/
def get_mitigated_cardiovascular_results : BiasReport :=
  { scenario := "cardiovascular"
    title := "Cardiovascular Disease Predictor - After Mitigation"
    description := none
    overall_score := 92.0
    groups :=
      [ ("Male",
          { group := "Male", sample_size := 700, accuracy := 0.83,
            tpr := 0.84, fpr := 0.16, precision := 0.82,
            confusion_matrix := { tn := 294, fp := 56, fn := 56, tp := 294 } }),
        ("Female",
          { group := "Female", sample_size := 300, accuracy := 0.81,
            tpr := 0.82, fpr := 0.18, precision := 0.80,
            confusion_matrix := { tn := 123, fp := 27, fn := 27, tp := 123 } }) ]
    metrics :=
      { statistical_parity := 0.02, equalized_odds_tpr := 0.02,
        equalized_odds_fpr := 0.02, predictive_parity := 0.02 }
    flags := []
    recommendations := none
    improvement := some
      { bias_score_change := 30.0, accuracy_disparity_reduction := 0.11,
        message := "Gender bias eliminated - equitable performance achieved" }
    mitigated_results := MitigatedResults.absent }

/-- Mitigated pain-management report returned by get_mitigated_pain_results.
The source dictionary carries no description key. -/
def get_mitigated_pain_results : BiasReport :=
  { scenario := "pain"
    title := "Pain Management Algorithm - After Mitigation"
    description := none
    overall_score := 88.7
    groups :=
      [ ("Age 18-40",
          { group := "Age 18-40", sample_size := 400, accuracy := 0.80,
            tpr := 0.81, fpr := 0.19, precision := 0.79,
            confusion_matrix := { tn := 162, fp := 38, fn := 38, tp := 162 } }),
        ("Age 41-64",
          { group := "Age 41-64", sample_size := 350, accuracy := 0.79,
            tpr := 0.80, fpr := 0.20, precision := 0.78,
            confusion_matrix := { tn := 140, fp := 35, fn := 35, tp := 140 } }),
        ("Age 65+",
          { group := "Age 65+", sample_size := 250, accuracy := 0.78,
            tpr := 0.79, fpr := 0.21, precision := 0.77,
            confusion_matrix := { tn := 99, fp := 26, fn := 26, tp := 99 } }) ]
    metrics :=
      { statistical_parity := 0.02, equalized_odds_tpr := 0.02,
        equalized_odds_fpr := 0.02, predictive_parity := 0.02 }
    flags := []
    recommendations := none
    improvement := some
      { bias_score_change := 30.2, accuracy_disparity_reduction := 0.12,
        message := "Age bias eliminated - fair pain assessment across all ages" }
    mitigated_results := MitigatedResults.absent }

/-- The scenario_loaders dictionary of analyze_bias: maps a scenario name to
its baseline report, none for an unrecognized name. -/
def scenario_loaders (s : String) : Option BiasReport :=
  if s = "dermatology" then some load_dermatology_scenario
  else if s = "cardiovascular" then some load_cardiovascular_scenario
  else if s = "pain" then some load_pain_scenario
  else none

/-- The mitigation_results dictionary of apply_mitigation: maps a scenario
name to its mitigated report, none for an unrecognized name. -/
def mitigation_results (s : String) : Option BiasReport :=
  if s = "dermatology" then some get_mitigated_dermatology_results
  else if s = "cardiovascular" then some get_mitigated_cardiovascular_results
  else if s = "pain" then some get_mitigated_pain_results
  else none

/-- Handler of POST /api/analyze over a parsed JSON object body: reads
scenario (default "dermatology") and use_sample (default True); on a truthy
use_sample serves the baseline report of a recognized scenario or a 400
error, on a falsy use_sample answers 501 not implemented. -/
def analyze_bias (data : List (String × JVal)) : Response :=
  let scenario := jget data "scenario" (JVal.str "dermatology")
  let use_sample := jget data "use_sample" (JVal.bool true)
  if truthy use_sample then
    match scenario with
    | JVal.str s =>
        match scenario_loaders s with
        | some results => ⟨200, RespBody.report results⟩
        | none => ⟨400, RespBody.error "Invalid scenario"⟩
    | _ => ⟨400, RespBody.error "Invalid scenario"⟩
  else
    ⟨501, RespBody.error "File upload not yet implemented"⟩

/-- Handler of POST /api/mitigate over a parsed JSON object body: reads
scenario (default "dermatology") and serves the mitigated report of a
recognized scenario or a 400 error; the mitigation field of the body is
never read. -/
def apply_mitigation (data : List (String × JVal)) : Response :=
  let scenario := jget data "scenario" (JVal.str "dermatology")
  match scenario with
  | JVal.str s =>
      match mitigation_results s with
      | some results => ⟨200, RespBody.report results⟩
      | none => ⟨400, RespBody.error "Invalid scenario"⟩
  | _ => ⟨400, RespBody.error "Invalid scenario"⟩

/-- All six report dictionaries served by the system: the three baselines and
the three mitigated variants. -/
def allReports : List BiasReport :=
  [ load_dermatology_scenario, load_cardiovascular_scenario, load_pain_scenario,
    get_mitigated_dermatology_results, get_mitigated_cardiovascular_results,
    get_mitigated_pain_results ]

/-- Accuracy of the named demographic group of a report, none when the group
label is not in the groups dictionary. -/
def BiasReport.groupAccuracy (r : BiasReport) (g : String) : Option ℚ :=
  (r.groups.find? (fun p => p.1 == g)).map (fun p => p.2.accuracy)

/-- True when in every demographic group of the report the four
confusion-matrix counts sum exactly to the sample size of the group. -/
def confusionSumsMatch (r : BiasReport) : Bool :=
  r.groups.all (fun p =>
    p.2.confusion_matrix.tn + p.2.confusion_matrix.fp +
      p.2.confusion_matrix.fn + p.2.confusion_matrix.tp == p.2.sample_size)

/-- Claim C1: for every valid scenario identifier s, a POST /analyze request
with body only containing scenario s (use_sample defaulting to true) succeeds
with the baseline report whose scenario field equals s and whose
mitigated_results field is the "not yet computed" marker. -/
theorem claim_C1 (s : String)
    (h : s = "dermatology" ∨ s = "cardiovascular" ∨ s = "pain") :
    ∃ r : BiasReport,
      analyze_bias [("scenario", JVal.str s)] = ⟨200, RespBody.report r⟩ ∧
      r.scenario = s ∧ r.mitigated_results = MitigatedResults.nullMarker := by
  rcases h with rfl | rfl | rfl
  · exact ⟨load_dermatology_scenario, rfl, rfl, rfl⟩
  · exact ⟨load_cardiovascular_scenario, rfl, rfl, rfl⟩
  · exact ⟨load_pain_scenario, rfl, rfl, rfl⟩

theorem claim_C1_witness :
    ∃ r : BiasReport,
      analyze_bias [("scenario", JVal.str "cardiovascular")] =
        ⟨200, RespBody.report r⟩ ∧
      r.scenario = "cardiovascular" ∧
      r.mitigated_results = MitigatedResults.nullMarker :=
  claim_C1 "cardiovascular" (Or.inr (Or.inl rfl))

/-- Claim C2: for every valid scenario identifier s, the report of
POST /mitigate has an overall_score strictly greater than the overall_score
of the baseline report of POST /analyze, and its flags sequence is empty. -/
theorem claim_C2 (s : String)
    (h : s = "dermatology" ∨ s = "cardiovascular" ∨ s = "pain") :
    ∃ rb rm : BiasReport,
      analyze_bias [("scenario", JVal.str s)] = ⟨200, RespBody.report rb⟩ ∧
      apply_mitigation [("scenario", JVal.str s)] = ⟨200, RespBody.report rm⟩ ∧
      rb.overall_score < rm.overall_score ∧ rm.flags = [] := by
  rcases h with rfl | rfl | rfl
  · refine ⟨load_dermatology_scenario, get_mitigated_dermatology_results,
      rfl, rfl, ?_, rfl⟩
    norm_num [load_dermatology_scenario, get_mitigated_dermatology_results]
  · refine ⟨load_cardiovascular_scenario, get_mitigated_cardiovascular_results,
      rfl, rfl, ?_, rfl⟩
    norm_num [load_cardiovascular_scenario, get_mitigated_cardiovascular_results]
  · refine ⟨load_pain_scenario, get_mitigated_pain_results, rfl, rfl, ?_, rfl⟩
    norm_num [load_pain_scenario, get_mitigated_pain_results]

theorem claim_C2_witness :
    ∃ rb rm : BiasReport,
      analyze_bias [("scenario", JVal.str "pain")] = ⟨200, RespBody.report rb⟩ ∧
      apply_mitigation [("scenario", JVal.str "pain")] =
        ⟨200, RespBody.report rm⟩ ∧
      rb.overall_score < rm.overall_score ∧ rm.flags = [] :=
  claim_C2 "pain" (Or.inr (Or.inr rfl))

/-- Claim C3: for every string s that is not a valid scenario identifier, a
POST /analyze request with use_sample true and scenario s as well as a
POST /mitigate request with scenario s both answer 400 with an error message
and never a server error. -/
theorem claim_C3 (s : String) (h1 : s ≠ "dermatology")
    (h2 : s ≠ "cardiovascular") (h3 : s ≠ "pain") :
    analyze_bias [("scenario", JVal.str s), ("use_sample", JVal.bool true)] =
      ⟨400, RespBody.error "Invalid scenario"⟩ ∧
    apply_mitigation [("scenario", JVal.str s)] =
      ⟨400, RespBody.error "Invalid scenario"⟩ := by
  constructor <;>
    simp [analyze_bias, apply_mitigation, jget, truthy, scenario_loaders,
      mitigation_results, h1, h2, h3]

theorem claim_C3_witness :
    analyze_bias
        [("scenario", JVal.str "oncology"), ("use_sample", JVal.bool true)] =
      ⟨400, RespBody.error "Invalid scenario"⟩ ∧
    apply_mitigation [("scenario", JVal.str "oncology")] =
      ⟨400, RespBody.error "Invalid scenario"⟩ :=
  claim_C3 "oncology" (by decide) (by decide) (by decide)

/-- Claim C4 fails on the code: the mitigated cardiovascular report served by
the system carries no description key, so not every served report contains
both a title and a description. -/
theorem claim_C4_counterexample :
    ¬ ∀ r ∈ allReports, r.description.isSome = true := by
  intro h
  have hc := h get_mitigated_cardiovascular_results (by simp [allReports])
  simp [get_mitigated_cardiovascular_results] at hc

/-- Claim C4, amended: every report served by the system contains a nonempty
title display string; the three baseline reports and the mitigated
dermatology report also contain a description, while the mitigated
cardiovascular and mitigated pain reports contain no description field. -/
theorem claim_C4 :
    load_dermatology_scenario.title ≠ "" ∧
    load_cardiovascular_scenario.title ≠ "" ∧
    load_pain_scenario.title ≠ "" ∧
    get_mitigated_dermatology_results.title ≠ "" ∧
    get_mitigated_cardiovascular_results.title ≠ "" ∧
    get_mitigated_pain_results.title ≠ "" ∧
    load_dermatology_scenario.description.isSome = true ∧
    load_cardiovascular_scenario.description.isSome = true ∧
    load_pain_scenario.description.isSome = true ∧
    get_mitigated_dermatology_results.description.isSome = true ∧
    get_mitigated_cardiovascular_results.description = none ∧
    get_mitigated_pain_results.description = none := by
  refine ⟨?_, ?_, ?_, ?_, ?_, ?_, rfl, rfl, rfl, rfl, rfl, rfl⟩ <;> decide

/-- Claim C5: for every valid scenario identifier and each of the four
fairness metrics, the mitigated report's value is strictly less than the
baseline report's value for the same metric. -/
theorem claim_C5 (s : String)
    (h : s = "dermatology" ∨ s = "cardiovascular" ∨ s = "pain") :
    ∃ rb rm : BiasReport,
      analyze_bias [("scenario", JVal.str s)] = ⟨200, RespBody.report rb⟩ ∧
      apply_mitigation [("scenario", JVal.str s)] = ⟨200, RespBody.report rm⟩ ∧
      rm.metrics.statistical_parity < rb.metrics.statistical_parity ∧
      rm.metrics.equalized_odds_tpr < rb.metrics.equalized_odds_tpr ∧
      rm.metrics.equalized_odds_fpr < rb.metrics.equalized_odds_fpr ∧
      rm.metrics.predictive_parity < rb.metrics.predictive_parity := by
  rcases h with rfl | rfl | rfl
  · refine ⟨load_dermatology_scenario, get_mitigated_dermatology_results,
      rfl, rfl, ?_, ?_, ?_, ?_⟩ <;>
      norm_num [load_dermatology_scenario, get_mitigated_dermatology_results]
  · refine ⟨load_cardiovascular_scenario, get_mitigated_cardiovascular_results,
      rfl, rfl, ?_, ?_, ?_, ?_⟩ <;>
      norm_num [load_cardiovascular_scenario,
        get_mitigated_cardiovascular_results]
  · refine ⟨load_pain_scenario, get_mitigated_pain_results,
      rfl, rfl, ?_, ?_, ?_, ?_⟩ <;>
      norm_num [load_pain_scenario, get_mitigated_pain_results]

theorem claim_C5_witness :
    ∃ rb rm : BiasReport,
      analyze_bias [("scenario", JVal.str "dermatology")] =
        ⟨200, RespBody.report rb⟩ ∧
      apply_mitigation [("scenario", JVal.str "dermatology")] =
        ⟨200, RespBody.report rm⟩ ∧
      rm.metrics.statistical_parity < rb.metrics.statistical_parity ∧
      rm.metrics.equalized_odds_tpr < rb.metrics.equalized_odds_tpr ∧
      rm.metrics.equalized_odds_fpr < rb.metrics.equalized_odds_fpr ∧
      rm.metrics.predictive_parity < rb.metrics.predictive_parity :=
  claim_C5 "dermatology" (Or.inl rfl)

/-- Claim C6: POST /analyze with scenario cardiovascular returns a report
with overall_score 62.0, accuracy 0.85 for the Male group, accuracy 0.72 for
the Female group and statistical_parity 0.13. -/
theorem claim_C6 :
    ∃ r : BiasReport,
      analyze_bias [("scenario", JVal.str "cardiovascular")] =
        ⟨200, RespBody.report r⟩ ∧
      r.overall_score = 62.0 ∧
      r.groupAccuracy "Male" = some 0.85 ∧
      r.groupAccuracy "Female" = some 0.72 ∧
      r.metrics.statistical_parity = 0.13 :=
  ⟨load_cardiovascular_scenario, rfl, rfl, rfl, rfl, rfl⟩

/-- Claim C7: for every JSON body in which use_sample is the boolean false,
POST /analyze returns the not-implemented status 501, regardless of the value
of scenario, including values that are not valid scenario identifiers. -/
theorem claim_C7 (data : List (String × JVal))
    (h : jget data "use_sample" (JVal.bool true) = JVal.bool false) :
    analyze_bias data = ⟨501, RespBody.error "File upload not yet implemented"⟩ := by
  simp [analyze_bias, h, truthy]

theorem claim_C7_witness :
    analyze_bias
        [("scenario", JVal.str "oncology"), ("use_sample", JVal.bool false)] =
      ⟨501, RespBody.error "File upload not yet implemented"⟩ :=
  claim_C7 [("scenario", JVal.str "oncology"), ("use_sample", JVal.bool false)]
    (by decide)

/-- Claim C8: the response of POST /mitigate does not depend on the
mitigation field of the request body.  For every scenario value and any two
values of the mitigation field the responses are identical, and they equal
the response when the field is absent altogether. -/
theorem claim_C8 (sv m1 m2 : JVal) :
    apply_mitigation [("scenario", sv), ("mitigation", m1)] =
      apply_mitigation [("scenario", sv), ("mitigation", m2)] ∧
    apply_mitigation [("scenario", sv), ("mitigation", m1)] =
      apply_mitigation [("scenario", sv)] :=
  ⟨rfl, rfl⟩

/-- Claim C9: in every report of the catalog, baseline and mitigated alike,
and for every demographic group of that report, the four confusion-matrix
counts tn + fp + fn + tp sum exactly to the sample_size of the group. -/
theorem claim_C9 : ∀ r ∈ allReports, confusionSumsMatch r = true := by
  intro r hr
  simp only [allReports, List.mem_cons, List.not_mem_nil, or_false] at hr
  rcases hr with rfl | rfl | rfl | rfl | rfl | rfl <;> rfl

theorem claim_C9_witness :
    load_dermatology_scenario ∈ allReports ∧
    confusionSumsMatch load_dermatology_scenario = true :=
  ⟨by simp [allReports], claim_C9 load_dermatology_scenario (by simp [allReports])⟩

/-- Claim C10: POST /analyze branches on Python truthiness of the use_sample
value, not on boolean equality with true: a truthy value of any shape behaves
exactly as the boolean true, a falsy value (false, 0, the empty string, or an
explicit null) yields the 501 not-implemented response; in particular the
nonempty string "false" and the number 1 are truthy while false, 0, "" and
null are falsy. -/
theorem claim_C10 (sv uv : JVal) :
    (truthy uv = true →
      analyze_bias [("scenario", sv), ("use_sample", uv)] =
        analyze_bias [("scenario", sv), ("use_sample", JVal.bool true)]) ∧
    (truthy uv = false →
      analyze_bias [("scenario", sv), ("use_sample", uv)] =
        ⟨501, RespBody.error "File upload not yet implemented"⟩) ∧
    truthy (JVal.str "false") = true ∧
    truthy (JVal.num 1) = true ∧
    truthy (JVal.bool false) = false ∧
    truthy (JVal.num 0) = false ∧
    truthy (JVal.str "") = false ∧
    truthy JVal.null = false := by
  refine ⟨?_, ?_, rfl, ?_, rfl, ?_, rfl, rfl⟩
  · intro h
    simp [analyze_bias, jget, h, show truthy (JVal.bool true) = true from rfl]
  · intro h
    simp [analyze_bias, jget, h]
  · simp [truthy]
  · simp [truthy]

theorem claim_C10_witness :
    analyze_bias
        [("scenario", JVal.str "dermatology"), ("use_sample", JVal.str "false")] =
      analyze_bias
        [("scenario", JVal.str "dermatology"), ("use_sample", JVal.bool true)] ∧
    analyze_bias
        [("scenario", JVal.str "dermatology"), ("use_sample", JVal.null)] =
      ⟨501, RespBody.error "File upload not yet implemented"⟩ :=
  ⟨(claim_C10 (JVal.str "dermatology") (JVal.str "false")).1 rfl,
   (claim_C10 (JVal.str "dermatology") JVal.null).2.1 rfl⟩
